import Mathlib

/-!
Shallow embedding of the notification subsystem (app/notifications.py):
data model, the retrieval query `get_notifications`, the read/expiry
reconciliation `mark_read`, and the dispatching `send`, together with
theorems checking the specification's claims about them.
-/

namespace Throat

/-- A user row (app.models.User): only the columns the notification code reads. -/
structure User where
  uid : String
  name : String
deriving DecidableEq, Repr

/-- A sub (community) row: columns read by the notification code. -/
structure Sub where
  sid : String
  name : String
  nsfw : Bool
deriving DecidableEq, Repr

/-- A post row: columns selected by the notification query and push payload. -/
structure SubPost where
  pid : Nat
  title : String
  posted : Int
  nsfw : Bool
  score : Int
  link : Option String
  content : Option String
deriving DecidableEq, Repr

/-- A comment row; `status` is null for live comments, non-null when soft-deleted. -/
structure SubPostComment where
  cid : Nat
  content : String
  score : Int
  status : Option Nat
  parentcid : Option Nat
  time : Int
deriving DecidableEq, Repr

/-- A per-user comment view receipt. -/
structure SubPostCommentView where
  id : Nat
  uid : String
  cid : Nat
deriving DecidableEq, Repr

/-- The requesting user's vote on a post. -/
structure SubPostVote where
  uid : String
  pid : Nat
  positive : Bool
deriving DecidableEq, Repr

/-- The requesting user's vote on a comment. -/
structure SubPostCommentVote where
  uid : String
  cid : Nat
  positive : Bool
deriving DecidableEq, Repr

/-- A directed block edge: `uid` blocks `target`. -/
structure UserContentBlock where
  id : Nat
  uid : String
  target : String
deriving DecidableEq, Repr

/-- A moderator membership edge; a row with `invite = false` is an active mod. -/
structure SubMod where
  user : String
  sub : String
  invite : Bool
deriving DecidableEq, Repr

/-- A notification row. `read = none` means unread; `sender = none` means
system-generated. `sub`, `post`, `comment`, `content` are nullable. -/
structure Notification where
  id : Nat
  type : String
  target : String
  sender : Option String
  sub : Option String
  post : Option Nat
  comment : Option Nat
  content : Option String
  created : Int
  read : Option Int
deriving DecidableEq, Repr

/-- The relational store: one list per table used by the notification code. -/
structure Store where
  users : List User
  subs : List Sub
  posts : List SubPost
  comments : List SubPostComment
  commentViews : List SubPostCommentView
  postVotes : List SubPostVote
  commentVotes : List SubPostCommentVote
  blocks : List UserContentBlock
  submods : List SubMod
  notifications : List Notification
deriving DecidableEq, Repr

/-- The four notification types subject to the block-visibility rule
(the list at notifications.py lines 124-129). -/
def notificationTypes : List String :=
  ["POST_REPLY", "COMMENT_REPLY", "POST_MENTION", "COMMENT_MENTION"]

/-- `SubPostComment.status.is_null(True)` over the LEFT OUTER join: when the
notification has no comment, or the comment row is absent, the joined column
is null and the condition passes; otherwise the comment's status must be null. -/
def commentStatusOk (st : Store) (n : Notification) : Bool :=
  match n.comment with
  | none => true
  | some c =>
    match st.comments.find? (fun cm => cm.cid == c) with
    | none => true
    | some cm => cm.status.isNone

/-- The `User` row joined on `Notification.sender == User.uid` (LEFT OUTER). -/
def senderRow (st : Store) (n : Notification) : Option User :=
  n.sender.bind (fun s => st.users.find? (fun u => u.uid == s))

/-- The `UserContentBlock` row joined on
`(UserContentBlock.uid == uid) & (UserContentBlock.target == User.uid)`. -/
def blockRow (uid : String) (st : Store) (n : Notification) : Option UserContentBlock :=
  (senderRow st n).bind (fun u => st.blocks.find? (fun b => b.uid == uid && b.target == u.uid))

/-- First active (non-invite) mod row for user `u` on sub `sd`. -/
def activeModRow (st : Store) (u : String) (sd : String) : Option SubMod :=
  st.submods.find? (fun m => m.user == u && m.sub == sd && !m.invite)

/-- The `SubMod` row joined on
`(SubMod.user == User.uid) & (SubMod.sub == Notification.sub) & ~SubMod.invite`. -/
def senderModRow (st : Store) (n : Notification) : Option SubMod :=
  (senderRow st n).bind (fun u => n.sub.bind (fun sd => activeModRow st u.uid sd))

/-- The `SubModCurrentUser` row joined on
`(SubModCurrentUser.user == uid) & (SubModCurrentUser.sub == Notification.sub) & ~invite`. -/
def viewerModRow (uid : String) (st : Store) (n : Notification) : Option SubMod :=
  n.sub.bind (fun sd => activeModRow st uid sd)

/-- The block-visibility disjunction of the WHERE clause (lines 120-133):
no block row, or type outside the four listed, or either mod join matched. -/
def notifVisible (uid : String) (st : Store) (n : Notification) : Bool :=
  (blockRow uid st n).isNone || !(notificationTypes.contains n.type)
    || (senderModRow st n).isSome || (viewerModRow uid st n).isSome

/-- The full WHERE clause of the main query (lines 117-134). -/
def notifWhere (uid : String) (st : Store) (n : Notification) : Bool :=
  n.target == uid && commentStatusOk st n && notifVisible uid st n

/-- Notifications passing the main query's WHERE clause. -/
def notifFiltered (uid : String) (st : Store) : List Notification :=
  st.notifications.filter (notifWhere uid st)

/-- `ORDER BY Notification.created DESC` as a relation. -/
def createdGE (a b : Notification) : Prop :=
  b.created ≤ a.created

instance : DecidableRel createdGE :=
  fun a b => inferInstanceAs (Decidable (b.created ≤ a.created))

instance : IsTotal Notification createdGE :=
  ⟨fun a b => le_total b.created a.created⟩

instance : IsTrans Notification createdGE :=
  ⟨fun _ _ _ hab hbc => le_trans hbc hab⟩

/-- The filtered notifications in `created` descending order. -/
def notifSorted (uid : String) (st : Store) : List Notification :=
  List.insertionSort createdGE (notifFiltered uid st)

/-- `paginate(page, size)`: 1-based page of a fixed-size pagination. -/
def paginate (page size : Nat) (l : List α) : List α :=
  (l.drop ((page - 1) * size)).take size

/-- One row of the result-set dict built by the main query, vote columns
included (they are filled in by the merge step). -/
structure NotifView where
  id : Nat
  type : String
  read : Option Int
  created : Int
  sid : Option String
  sub_name : Option String
  sub_nsfw : Option Bool
  pid : Option Nat
  cid : Option Nat
  sender : Option String
  senderuid : Option String
  content : Option String
  post_title : Option String
  posted : Option Int
  nsfw : Option Bool
  comment_content : Option String
  comment_score : Option Int
  post_comment : Option String
  already_viewed : Option Nat
  post_score : Option Int
  post_link : Option String
  comment_context : Option String
  comment_context_posted : Option Int
  comment_context_score : Option Int
  comment_context_cid : Option Nat
  post_content : Option String
  comment_positive : Option Bool
  post_positive : Option Bool
deriving DecidableEq, Repr

/-- The SELECT list of the main query: denormalized columns from the
LEFT OUTER joins on Sub, SubPost, SubPostComment, SubPostCommentView,
User (sender), and the parent-comment alias. -/
def enrich (uid : String) (st : Store) (n : Notification) : NotifView :=
  let sb := n.sub.bind (fun s => st.subs.find? (fun x => x.sid == s))
  let po := n.post.bind (fun p => st.posts.find? (fun x => x.pid == p))
  let cm := n.comment.bind (fun c => st.comments.find? (fun x => x.cid == c))
  let cv := cm.bind (fun c => st.commentViews.find? (fun v => v.cid == c.cid && v.uid == uid))
  let su := senderRow st n
  let pc := cm.bind (fun c => c.parentcid.bind (fun p => st.comments.find? (fun x => x.cid == p)))
  { id := n.id
    type := n.type
    read := n.read
    created := n.created
    sid := sb.map (fun s => s.sid)
    sub_name := sb.map (fun s => s.name)
    sub_nsfw := sb.map (fun s => s.nsfw)
    pid := n.post
    cid := n.comment
    sender := su.map (fun u => u.name)
    senderuid := n.sender
    content := n.content
    post_title := po.map (fun p => p.title)
    posted := po.map (fun p => p.posted)
    nsfw := po.map (fun p => p.nsfw)
    comment_content := cm.map (fun c => c.content)
    comment_score := cm.map (fun c => c.score)
    post_comment := cm.map (fun c => c.content)
    already_viewed := cv.map (fun v => v.id)
    post_score := po.map (fun p => p.score)
    post_link := po.bind (fun p => p.link)
    comment_context := pc.map (fun c => c.content)
    comment_context_posted := pc.map (fun c => c.time)
    comment_context_score := pc.map (fun c => c.score)
    comment_context_cid := pc.map (fun c => c.cid)
    post_content := po.bind (fun p => p.content)
    comment_positive := none
    post_positive := none }

/-- One row of the second (votes) query. -/
structure VoteRow where
  nid : Nat
  comment_positive : Option Bool
  post_positive : Option Bool
deriving DecidableEq, Repr

/-- The votes query's SELECT for one notification: the requesting user's
vote on the joined post and on the joined comment (lines 144-167). -/
def voteRow (uid : String) (st : Store) (m : Notification) : VoteRow :=
  let po := m.post.bind (fun p => st.posts.find? (fun x => x.pid == p))
  let cm := m.comment.bind (fun c => st.comments.find? (fun x => x.cid == c))
  { nid := m.id
    comment_positive :=
      cm.bind (fun c =>
        (st.commentVotes.find? (fun v => v.uid == uid && v.cid == c.cid)).map
          (fun v => v.positive))
    post_positive :=
      po.bind (fun p =>
        (st.postVotes.find? (fun v => v.uid == uid && v.pid == p.pid)).map
          (fun v => v.positive)) }

/-- `votes_by_id = {v["id"]: v for v in votes}` followed by lookup:
the last row with the given notification id wins, as in a dict build. -/
def votesDict (rows : List VoteRow) (i : Nat) : Option VoteRow :=
  rows.foldl (fun acc v => if v.nid == i then some v else acc) none

/-- The second query (lines 144-167): all notification rows whose id is in
the page's id list, each carrying the requesting user's two vote columns. -/
def pageVotes (uid : String) (ids : List Nat) (st : Store) : List VoteRow :=
  (st.notifications.filter (fun m => ids.contains m.id)).map (voteRow uid st)

/-- The in-memory merge (lines 168-171): overwrite the two vote columns of a
row with the dict entry for its id. -/
def mergeVotes (votes : List VoteRow) (v : NotifView) : NotifView :=
  let vr := (votesDict votes v.id).getD
    { nid := v.id, comment_positive := none, post_positive := none }
  { v with comment_positive := vr.comment_positive, post_positive := vr.post_positive }

/-- `Notifications.get_notifications(uid, page)`: the filtered, sorted,
paginated main query, enriched; then the votes query restricted to the
page's ids, merged back in-memory by notification id. -/
def get_notifications (uid : String) (page : Nat) (st : Store) : List NotifView :=
  let pageRows := paginate page 50 (notifSorted uid st)
  let votes := pageVotes uid (pageRows.map (fun n => n.id)) st
  (pageRows.map (enrich uid st)).map (mergeVotes votes)

/-- `timedelta(days=30)` in seconds. -/
def thirtyDays : Int := 30 * 86400

/-- The bulk read update applied to one row:
`WHERE read IS NULL AND target == uid` sets `read = now`. -/
def markReadF (uid : String) (now : Int) (n : Notification) : Notification :=
  if n.read.isNone && n.target == uid then { n with read := some now } else n

/-- The keep-predicate of the expiry DELETE (lines 180-184): a row is deleted
when it targets `uid`, is over thirty days old, and its id is not on the
supplied page. -/
def keepPred (uid : String) (now : Int) (ids : List Nat) (n : Notification) : Bool :=
  !(n.target == uid && decide (n.created < now - thirtyDays) && !(ids.contains n.id))

/-- `Notifications.mark_read(uid, notifs=None)`: if `notifs` is truthy
(present and non-empty), prune expired rows not on the page; then bulk-set
`read = now` on unread rows targeting `uid`. -/
def mark_read (uid : String) (notifs : Option (List NotifView)) (now : Int) (st : Store) : Store :=
  let page := notifs.getD []
  let afterDelete :=
    if page.isEmpty then st.notifications
    else st.notifications.filter (keepPred uid now (page.map (fun v => v.id)))
  { st with notifications := afterDelete.map (markReadF uid now) }

/-- Modelled from the spec: `get_notification_count` lives in `app/misc.py`,
which is not part of the sources; spec 4.1 says Send must "compute the
recipient's current unread count". -/
def getNotificationCount (uid : String) (st : Store) : Nat :=
  (st.notifications.filter (fun n => n.read.isNone && n.target == uid)).length

/-- Whether `u` is an active (non-invite) moderator of the optional sub:
the SQL join condition `SubMod.sub == sub` never matches when `sub` is null. -/
def activeModB (st : Store) (u : String) (sub : Option String) : Bool :=
  match sub with
  | none => false
  | some sd => st.submods.any (fun m => m.user == u && m.sub == sd && !m.invite)

/-- The `ignore` query of `send` (lines 223-257): a block row exists with
`UserContentBlock.target == sender` and `UserContentBlock.uid == target`,
and both mod joins (blocker on `sub`, blocked on `sub`) came up empty.
When `sender` is null the equality never matches any row. -/
def isBlockedSend (target : String) (sender : Option String) (sub : Option String)
    (st : Store) : Bool :=
  match sender with
  | none => false
  | some s =>
    st.blocks.any (fun b => b.target == s && b.uid == target)
      && !(activeModB st target sub) && !(activeModB st s sub)

/-- Site configuration consumed by `send`. -/
structure Config where
  subPref : String
  iconUrl : String
deriving DecidableEq, Repr

/-- Exceptions the push section of `send` can raise: a `DoesNotExist` from
an unchecked `.get` lookup, or an attribute access on `None`. -/
inductive PushErr where
  | userDoesNotExist
  | subDoesNotExist
  | postDoesNotExist
  | noneAttr
deriving DecidableEq, Repr

/-- A dispatch effect: the live-socket emit or the push-transport send. -/
inductive Event where
  | socket (count : Nat) (room : String)
  | push (topic title body badge : String) (count : Nat)
deriving DecidableEq, Repr

/-- `if sender: sender = User.get(User.uid == sender)` — an unchecked lookup. -/
def resolveOptUser (st : Store) (s : Option String) : Except PushErr (Option User) :=
  match s with
  | none => Except.ok none
  | some u =>
    match st.users.find? (fun x => x.uid == u) with
    | some x => Except.ok (some x)
    | none => Except.error PushErr.userDoesNotExist

/-- `if sub: sub = Sub.get(Sub.sid == sub)` — an unchecked lookup. -/
def resolveOptSub (st : Store) (s : Option String) : Except PushErr (Option Sub) :=
  match s with
  | none => Except.ok none
  | some u =>
    match st.subs.find? (fun x => x.sid == u) with
    | some x => Except.ok (some x)
    | none => Except.error PushErr.subDoesNotExist

/-- `if post: post = SubPost.get(SubPost.pid == post)` — an unchecked lookup. -/
def resolveOptPost (st : Store) (s : Option Nat) : Except PushErr (Option SubPost) :=
  match s with
  | none => Except.ok none
  | some u =>
    match st.posts.find? (fun x => x.pid == u) with
    | some x => Except.ok (some x)
    | none => Except.error PushErr.postDoesNotExist

/-- The generic fallback push title. -/
def genericTitle : String := "New notification."

/-- The generic fallback push body. -/
def genericBody : String :=
  "Looks like nobody bothered to code the message for this notification :("

/-- Push title and body composition (lines 276-312): a branch per recognized
type, each reading `sub.name`, `sender.name` and `post.title` (an attribute
access on `None` raises); any other type keeps the generic defaults. -/
def composePush (cfg : Config) (ntype : String) (senderU : Option User)
    (subU : Option Sub) (postU : Option SubPost) : Except PushErr (String × String) :=
  if ntype == "POST_REPLY" then
    match subU, senderU, postU with
    | some sb, some sd, some p =>
      Except.ok ("Post reply in " ++ cfg.subPref ++ "/" ++ sb.name,
        sd.name ++ " replied to your post titled " ++ p.title)
    | _, _, _ => Except.error PushErr.noneAttr
  else if ntype == "COMMENT_REPLY" then
    match subU, senderU, postU with
    | some sb, some sd, some p =>
      Except.ok ("Comment reply in " ++ cfg.subPref ++ "/" ++ sb.name,
        sd.name ++ " replied to your comment in the post titled " ++ p.title)
    | _, _, _ => Except.error PushErr.noneAttr
  else if ntype == "POST_MENTION" || ntype == "COMMENT_MENTION" then
    match subU, senderU, postU with
    | some sb, some sd, some p =>
      Except.ok ("You were mentioned in " ++ cfg.subPref ++ "/" ++ sb.name,
        sd.name ++ " mentioned you in the post titled " ++ p.title)
    | _, _, _ => Except.error PushErr.noneAttr
  else
    Except.ok (genericTitle, genericBody)

/-- The notification row `send` creates (lines 213-221): `created = now`,
`read` starts null. -/
def sentRow (notification_type target : String) (sender sub : Option String)
    (comment post : Option Nat) (content : Option String) (nextId : Nat)
    (now : Int) : Notification :=
  { id := nextId
    type := notification_type
    target := target
    sender := sender
    sub := sub
    post := post
    comment := comment
    content := content
    created := now
    read := none }

/-- The dispatch section of `send`, run against the store that already holds
the new row: block check, then socket emit, then (when the push transport is
configured) entity resolution, payload composition and the push send. -/
def sendDispatch (cfg : Config) (notification_type target : String)
    (sender sub : Option String) (post : Option Nat) (pushConfigured : Bool)
    (stNew : Store) : List Event × Option PushErr :=
  if isBlockedSend target sender sub stNew then ([], none)
  else
    let count := getNotificationCount target stNew
    let sockEv := Event.socket count ("user" ++ target)
    if pushConfigured then
      match resolveOptUser stNew sender, resolveOptSub stNew sub, resolveOptPost stNew post with
      | Except.ok su, Except.ok sb, Except.ok po =>
        match composePush cfg notification_type su sb po with
        | Except.ok tb =>
          ([sockEv, Event.push target tb.1 tb.2 cfg.iconUrl count], none)
        | Except.error e => ([sockEv], some e)
      | Except.error e, _, _ => ([sockEv], some e)
      | _, Except.error e, _ => ([sockEv], some e)
      | _, _, Except.error e => ([sockEv], some e)
    else ([sockEv], none)

/-- The outcome of `send`: the new store, the dispatch events that ran, and
the exception (if any) the push section raised after the row was persisted. -/
structure SendResult where
  store : Store
  events : List Event
  pushError : Option PushErr
deriving DecidableEq, Repr

/-- `Notifications.send`: persist the row first, then run the dispatch
section. `nextId` stands for the id the store assigns, `now` for
`datetime.utcnow()`, `pushConfigured` for `self.push_service` being set. -/
def send (cfg : Config) (notification_type target : String)
    (sender sub : Option String) (comment post : Option Nat)
    (content : Option String) (nextId : Nat) (now : Int)
    (pushConfigured : Bool) (st : Store) : SendResult :=
  let row := sentRow notification_type target sender sub comment post content nextId now
  let stNew := { st with notifications := st.notifications ++ [row] }
  let d := sendDispatch cfg notification_type target sender sub post pushConfigured stNew
  { store := stNew, events := d.1, pushError := d.2 }

/-! ### Supporting lemmas -/

theorem get_notifications_map_id (uid : String) (p : Nat) (st : Store) :
    (get_notifications uid p st).map (fun v => v.id)
      = (paginate p 50 (notifSorted uid st)).map (fun n => n.id) := by
  unfold get_notifications
  simp only [List.map_map]
  exact List.map_congr_left (fun a _ => rfl)

theorem get_notifications_map_created (uid : String) (p : Nat) (st : Store) :
    (get_notifications uid p st).map (fun v => v.created)
      = (paginate p 50 (notifSorted uid st)).map (fun n => n.created) := by
  unfold get_notifications
  simp only [List.map_map]
  exact List.map_congr_left (fun a _ => rfl)

theorem mem_of_mem_paginate {l : List α} {x : α} {p sz : Nat}
    (h : x ∈ paginate p sz l) : x ∈ l :=
  List.mem_of_mem_drop (List.mem_of_mem_take h)

theorem exists_paginate_of_mem {l : List α} {x : α} (h : x ∈ l) :
    ∃ p, x ∈ paginate p 50 l := by
  obtain ⟨i, hi, hx⟩ := List.mem_iff_getElem.mp h
  refine ⟨i / 50 + 1, ?_⟩
  unfold paginate
  have hdl : (l.drop (i / 50 * 50)).length = l.length - i / 50 * 50 :=
    List.length_drop _ _
  have hmod : i % 50 < 50 := Nat.mod_lt _ (by omega)
  have hdiv : i / 50 * 50 + i % 50 = i := by omega
  have hj : i % 50 < (l.drop (i / 50 * 50)).length := by omega
  have hjt : i % 50 < ((l.drop (i / 50 * 50)).take 50).length := by
    rw [List.length_take]
    omega
  have hval : ((l.drop (i / 50 * 50)).take 50)[i % 50] = x := by
    rw [List.getElem_take, List.getElem_drop]
    simp only [hdiv]
    exact hx
  have := List.getElem_mem hjt
  rw [hval] at this
  simpa using this

theorem votesDict_foldl_some {i : Nat} {vr : VoteRow} :
    ∀ (rows : List VoteRow) (acc : Option VoteRow),
      rows.foldl (fun acc v => if v.nid == i then some v else acc) acc = some vr →
      (vr ∈ rows ∧ vr.nid = i) ∨ acc = some vr := by
  intro rows
  induction rows with
  | nil => intro acc h; right; exact h
  | cons a tl ih =>
    intro acc h
    simp only [List.foldl_cons] at h
    rcases ih _ h with h1 | h2
    · left; exact ⟨List.mem_cons_of_mem _ h1.1, h1.2⟩
    · by_cases hc : a.nid == i
      · rw [if_pos hc] at h2
        left
        refine ⟨?_, ?_⟩
        · rw [← Option.some_inj.mp h2]; exact List.mem_cons_self _ _
        · rw [← Option.some_inj.mp h2]; simpa using hc
      · rw [if_neg hc] at h2
        right; exact h2

theorem votesDict_some {rows : List VoteRow} {i : Nat} {vr : VoteRow}
    (h : votesDict rows i = some vr) : vr ∈ rows ∧ vr.nid = i := by
  rcases votesDict_foldl_some rows none h with h1 | h2
  · exact h1
  · exact absurd h2 (by simp)

theorem votesDict_foldl_isSome {i : Nat} :
    ∀ (rows : List VoteRow) (acc : Option VoteRow),
      (acc.isSome ∨ ∃ r ∈ rows, r.nid = i) →
      (rows.foldl (fun acc v => if v.nid == i then some v else acc) acc).isSome := by
  intro rows
  induction rows with
  | nil =>
    intro acc h
    rcases h with h1 | h2
    · exact h1
    · simp at h2
  | cons a tl ih =>
    intro acc h
    simp only [List.foldl_cons]
    apply ih
    by_cases hc : a.nid == i
    · left; rw [if_pos hc]; rfl
    · rcases h with h1 | h2
      · left; rw [if_neg hc]; exact h1
      · obtain ⟨r, hr, hri⟩ := h2
        rcases List.mem_cons.mp hr with rfl | hrt
        · exact absurd hri (by simpa using hc)
        · right; exact ⟨r, hrt, hri⟩

theorem votesDict_isSome {rows : List VoteRow} {i : Nat}
    (h : ∃ r ∈ rows, r.nid = i) : (votesDict rows i).isSome :=
  votesDict_foldl_isSome rows none (Or.inr h)

/-! ### Claims -/

/-- C10: calling `mark_read` with an empty visible page is the same as
calling it with no page at all — the expiry pruning is skipped entirely and
no notification is deleted, no matter how old. -/
theorem claim10_empty_visible_page_skips_pruning (uid : String) (now : Int) (st : Store) :
    mark_read uid (some []) now st = mark_read uid none now st ∧
    (mark_read uid (some []) now st).notifications.length = st.notifications.length := by
  constructor
  · rfl
  · simp [mark_read]

theorem markReadF_idem (uid : String) (now now2 : Int) (n : Notification) :
    markReadF uid now2 (markReadF uid now n) = markReadF uid now n := by
  unfold markReadF
  by_cases h : n.read.isNone && n.target == uid
  · rw [if_pos h]
    simp
  · rw [if_neg h, if_neg h]

theorem filter_unread_map_markReadF (uid : String) (now : Int) (l : List Notification) :
    (l.map (markReadF uid now)).filter (fun n => n.read.isNone && n.target == uid) = [] := by
  induction l with
  | nil => rfl
  | cons a tl ih =>
    by_cases h : a.read.isNone && a.target == uid
    · have hm : markReadF uid now a = { a with read := some now } := by
        unfold markReadF; rw [if_pos h]
      simp only [List.map_cons, hm, List.filter_cons]
      simp only [Option.isNone_some, Bool.false_and, Bool.false_eq_true, if_false]
      exact ih
    · have hm : markReadF uid now a = a := by
        unfold markReadF; rw [if_neg h]
      simp only [List.map_cons, hm, List.filter_cons]
      rw [if_neg (by simpa using h)]
      exact ih

/-- C6: `mark_read(uid)` leaves an unread count of 0; calling it again
changes nothing (the store is unchanged) and the count is still 0. -/
theorem claim6_mark_read_idempotent (uid : String) (now now2 : Int) (st : Store) :
    getNotificationCount uid (mark_read uid none now st) = 0 ∧
    mark_read uid none now2 (mark_read uid none now st) = mark_read uid none now st ∧
    getNotificationCount uid (mark_read uid none now2 (mark_read uid none now st)) = 0 := by
  have h1 : getNotificationCount uid (mark_read uid none now st) = 0 := by
    simp only [mark_read, getNotificationCount, Option.getD_none, List.isEmpty_nil, if_true]
    rw [filter_unread_map_markReadF]
    rfl
  have h2 : mark_read uid none now2 (mark_read uid none now st) = mark_read uid none now st := by
    simp only [mark_read, Option.getD_none, List.isEmpty_nil, if_true]
    rw [List.map_map]
    have hcomp : (st.notifications.map (markReadF uid now2 ∘ markReadF uid now))
        = st.notifications.map (markReadF uid now) :=
      List.map_congr_left (fun a _ => markReadF_idem uid now now2 a)
    rw [hcomp]
  exact ⟨h1, h2, by rw [h2]; exact h1⟩

/-- C8: a page past the end of the viewer's filtered notification list is
empty (and, the model being a total function, no error is raised). -/
theorem claim8_out_of_range_page_empty (uid : String) (page : Nat) (st : Store)
    (h : (notifFiltered uid st).length ≤ (page - 1) * 50) :
    get_notifications uid page st = [] := by
  have hlen : (notifSorted uid st).length = (notifFiltered uid st).length :=
    (List.perm_insertionSort _ _).length_eq
  have hdrop : (notifSorted uid st).drop ((page - 1) * 50) = [] :=
    List.drop_eq_nil_of_le (by omega)
  have hrows : paginate page 50 (notifSorted uid st) = [] := by
    unfold paginate; rw [hdrop]; rfl
  unfold get_notifications
  rw [hrows]
  rfl

/-- Witness for C8 at a concrete input: an empty store, page 2. -/
theorem claim8_witness :
    get_notifications "u1" 2 (Store.mk [] [] [] [] [] [] [] [] [] []) = [] :=
  claim8_out_of_range_page_empty "u1" 2 _ (by decide)

theorem sendDispatch_events_ne_nil (cfg : Config) (nt target : String)
    (sender sub : Option String) (post : Option Nat) (pc : Bool) (stN : Store)
    (hb : isBlockedSend target sender sub stN = false) :
    (sendDispatch cfg nt target sender sub post pc stN).1 ≠ [] := by
  unfold sendDispatch
  rw [if_neg (by simp [hb])]
  split
  · split
    · split <;> simp
    · simp
    · simp
    · simp
  · simp

theorem sendDispatch_events_nil_iff (cfg : Config) (nt target : String)
    (sender sub : Option String) (post : Option Nat) (pc : Bool) (stN : Store) :
    (sendDispatch cfg nt target sender sub post pc stN).1 = [] ↔
      isBlockedSend target sender sub stN = true := by
  by_cases hb : isBlockedSend target sender sub stN = true
  · unfold sendDispatch
    rw [if_pos hb]
    simpa using hb
  · have hb' : isBlockedSend target sender sub stN = false := by simpa using hb
    constructor
    · intro h
      exact absurd h (sendDispatch_events_ne_nil cfg nt target sender sub post pc stN hb')
    · intro h
      exact absurd h hb

theorem activeModB_eq_true_iff (S : Store) (u : String) (sub : Option String) :
    activeModB S u sub = true ↔
      ∃ sd, sub = some sd ∧ ∃ m ∈ S.submods, m.user = u ∧ m.sub = sd ∧ m.invite = false := by
  cases sub with
  | none => simp [activeModB]
  | some sd =>
    simp only [activeModB, List.any_eq_true, Bool.and_eq_true, beq_iff_eq,
      Bool.not_eq_true', Option.some_inj]
    constructor
    · rintro ⟨m, hm, ⟨hu, hs⟩, hi⟩
      exact ⟨sd, rfl, m, hm, hu, hs, hi⟩
    · rintro ⟨sd2, rfl, m, hm, hu, hs, hi⟩
      exact ⟨m, hm, ⟨hu, hs⟩, hi⟩

theorem isBlockedSend_iff (target : String) (sender sub : Option String) (S : Store) :
    isBlockedSend target sender sub S = true ↔
      ∃ s, sender = some s ∧
        (∃ b ∈ S.blocks, b.uid = target ∧ b.target = s) ∧
        ¬(∃ sd, sub = some sd ∧ ∃ m ∈ S.submods, m.user = target ∧ m.sub = sd ∧ m.invite = false) ∧
        ¬(∃ sd, sub = some sd ∧ ∃ m ∈ S.submods, m.user = s ∧ m.sub = sd ∧ m.invite = false) := by
  cases sender with
  | none => simp [isBlockedSend]
  | some s =>
    simp only [isBlockedSend, Bool.and_eq_true, List.any_eq_true, beq_iff_eq,
      Bool.not_eq_true', Option.some_inj]
    rw [← Bool.not_eq_true (activeModB S target sub), ← Bool.not_eq_true (activeModB S s sub)]
    rw [activeModB_eq_true_iff, activeModB_eq_true_iff]
    constructor
    · rintro ⟨⟨⟨b, hb, hbt, hbu⟩, hm1⟩, hm2⟩
      exact ⟨s, rfl, ⟨b, hb, hbu, hbt⟩, hm1, hm2⟩
    · rintro ⟨s2, hs2, ⟨b, hb, hbu, hbt⟩, hm1, hm2⟩
      cases hs2
      exact ⟨⟨⟨b, hb, hbt, hbu⟩, hm1⟩, hm2⟩

/-- C1: `send` always persists the new notification row with `read = null`;
when the blocking predicate holds it terminates without any dispatch event
(no socket publish, no push), yet the row is still in the store. -/
theorem claim1_send_persists_row_blocked_no_dispatch
    (cfg : Config) (nt target : String) (sender sub : Option String)
    (comment post : Option Nat) (content : Option String) (nextId : Nat)
    (now : Int) (pc : Bool) (st : Store) :
    sentRow nt target sender sub comment post content nextId now
      ∈ (send cfg nt target sender sub comment post content nextId now pc st).store.notifications ∧
    (sentRow nt target sender sub comment post content nextId now).read = none ∧
    (isBlockedSend target sender sub
        (send cfg nt target sender sub comment post content nextId now pc st).store = true →
      (send cfg nt target sender sub comment post content nextId now pc st).events = []) := by
  refine ⟨?_, rfl, ?_⟩
  · simp [send]
  · intro hb
    simp only [send] at hb ⊢
    unfold sendDispatch
    rw [if_pos hb]

/-- Witness for C1 at a concrete blocked input: target blocks sender, no
moderators, and the dispatch event list is empty. -/
theorem claim1_witness :
    (send (Config.mk "s" "i") "POST_REPLY" "uA" (some "uB") none none none none 5 0 true
      (Store.mk [] [] [] [] [] [] [] [UserContentBlock.mk 1 "uA" "uB"] [] [])).events = [] :=
  (claim1_send_persists_row_blocked_no_dispatch (Config.mk "s" "i") "POST_REPLY" "uA"
    (some "uB") none none none none 5 0 true
    (Store.mk [] [] [] [] [] [] [] [UserContentBlock.mk 1 "uA" "uB"] [] [])).2.2 (by decide)

/-- C4: `send` suppresses dispatch exactly when a block edge exists with the
target as blocker and the sender as blocked party and neither party is an
active (non-invite) mod of the given sub; with a null sender it never
suppresses. -/
theorem claim4_send_suppression_iff
    (cfg : Config) (nt target : String) (sender sub : Option String)
    (comment post : Option Nat) (content : Option String) (nextId : Nat)
    (now : Int) (pc : Bool) (st : Store) :
    ((send cfg nt target sender sub comment post content nextId now pc st).events = [] ↔
      ∃ s, sender = some s ∧
        (∃ b ∈ st.blocks, b.uid = target ∧ b.target = s) ∧
        ¬(∃ sd, sub = some sd ∧ ∃ m ∈ st.submods, m.user = target ∧ m.sub = sd ∧ m.invite = false) ∧
        ¬(∃ sd, sub = some sd ∧ ∃ m ∈ st.submods, m.user = s ∧ m.sub = sd ∧ m.invite = false)) ∧
    (sender = none →
      (send cfg nt target sender sub comment post content nextId now pc st).events ≠ []) := by
  constructor
  · rw [show (send cfg nt target sender sub comment post content nextId now pc st).events
        = (sendDispatch cfg nt target sender sub post pc
            { st with notifications := st.notifications
              ++ [sentRow nt target sender sub comment post content nextId now] }).1 from rfl]
    rw [sendDispatch_events_nil_iff, isBlockedSend_iff]
  · intro hs
    subst hs
    rw [show (send cfg nt target none sub comment post content nextId now pc st).events
        = (sendDispatch cfg nt target none sub post pc
            { st with notifications := st.notifications
              ++ [sentRow nt target none sub comment post content nextId now] }).1 from rfl]
    exact sendDispatch_events_ne_nil cfg nt target none sub post pc _ rfl

/-- Witness for C4 at a concrete input: a system notification (null sender)
is always dispatched. -/
theorem claim4_witness :
    (send (Config.mk "s" "i") "POST_REPLY" "uA" none none none none none 1 0 true
      (Store.mk [] [] [] [] [] [] [] [] [] [])).events ≠ [] :=
  (claim4_send_suppression_iff (Config.mk "s" "i") "POST_REPLY" "uA" none none none none
    none 1 0 true (Store.mk [] [] [] [] [] [] [] [] [] [])).2 rfl

/-- C9: for a notification type outside the recognized set, the push section
of `send` raises nothing: the payload is composed with the generic
placeholder title and body and is still handed to the push transport. -/
theorem claim9_unknown_type_generic_push
    (cfg : Config) (nt target : String) (sender sub : Option String)
    (comment post : Option Nat) (content : Option String) (nextId : Nat)
    (now : Int) (st : Store)
    (hnt : nt ∉ notificationTypes)
    (hblock : isBlockedSend target sender sub st = false)
    (hsender : ∀ s, sender = some s → (st.users.find? (fun x => x.uid == s)).isSome)
    (hsub : ∀ s, sub = some s → (st.subs.find? (fun x => x.sid == s)).isSome)
    (hpost : ∀ p, post = some p → (st.posts.find? (fun x => x.pid == p)).isSome) :
    (send cfg nt target sender sub comment post content nextId now true st).pushError = none ∧
    (send cfg nt target sender sub comment post content nextId now true st).events =
      [Event.socket
        (getNotificationCount target
          (send cfg nt target sender sub comment post content nextId now true st).store)
        ("user" ++ target),
       Event.push target genericTitle genericBody cfg.iconUrl
        (getNotificationCount target
          (send cfg nt target sender sub comment post content nextId now true st).store)] := by
  have hcomp : ∀ (ou : Option User) (ob : Option Sub) (op : Option SubPost),
      composePush cfg nt ou ob op = Except.ok (genericTitle, genericBody) := by
    intro ou ob op
    simp only [notificationTypes, List.mem_cons, List.not_mem_nil, or_false, not_or] at hnt
    unfold composePush
    rw [if_neg (by simpa using hnt.1), if_neg (by simpa using hnt.2.1),
      if_neg (by simp [hnt.2.2.1, hnt.2.2.2])]
  obtain ⟨ou, hou⟩ : ∃ ou, resolveOptUser
      { st with notifications := st.notifications
        ++ [sentRow nt target sender sub comment post content nextId now] } sender
      = Except.ok ou := by
    cases hs : sender with
    | none => exact ⟨none, rfl⟩
    | some s =>
      obtain ⟨x, hx⟩ := Option.isSome_iff_exists.mp (hsender s hs)
      refine ⟨some x, ?_⟩
      simp only [resolveOptUser]
      rw [show (List.find? (fun x => x.uid == s)
        ({ st with notifications := st.notifications
          ++ [sentRow nt target sender sub comment post content nextId now] } : Store).users)
        = some x from hx]
  obtain ⟨ob, hob⟩ : ∃ ob, resolveOptSub
      { st with notifications := st.notifications
        ++ [sentRow nt target sender sub comment post content nextId now] } sub
      = Except.ok ob := by
    cases hs : sub with
    | none => exact ⟨none, rfl⟩
    | some s =>
      obtain ⟨x, hx⟩ := Option.isSome_iff_exists.mp (hsub s hs)
      refine ⟨some x, ?_⟩
      simp only [resolveOptSub]
      rw [show (List.find? (fun x => x.sid == s)
        ({ st with notifications := st.notifications
          ++ [sentRow nt target sender sub comment post content nextId now] } : Store).subs)
        = some x from hx]
  obtain ⟨op, hop⟩ : ∃ op, resolveOptPost
      { st with notifications := st.notifications
        ++ [sentRow nt target sender sub comment post content nextId now] } post
      = Except.ok op := by
    cases hs : post with
    | none => exact ⟨none, rfl⟩
    | some p =>
      obtain ⟨x, hx⟩ := Option.isSome_iff_exists.mp (hpost p hs)
      refine ⟨some x, ?_⟩
      simp only [resolveOptPost]
      rw [show (List.find? (fun x => x.pid == p)
        ({ st with notifications := st.notifications
          ++ [sentRow nt target sender sub comment post content nextId now] } : Store).posts)
        = some x from hx]
  have hb2 : isBlockedSend target sender sub
      { st with notifications := st.notifications
        ++ [sentRow nt target sender sub comment post content nextId now] } = false := hblock
  simp only [send]
  unfold sendDispatch
  rw [if_neg (by simp [hb2]), if_pos rfl, hou, hob, hop]
  dsimp only
  rw [hcomp ou ob op]
  exact ⟨rfl, rfl⟩

/-- Witness for C9 at a concrete input: an unrecognized type on an empty
store still produces no push-section error. -/
theorem claim9_witness :
    (send (Config.mk "s" "i") "SUB_BAN" "uA" none none none none none 3 0 true
      (Store.mk [] [] [] [] [] [] [] [] [] [])).pushError = none :=
  (claim9_unknown_type_generic_push (Config.mk "s" "i") "SUB_BAN" "uA" none none none none
    none 3 0 (Store.mk [] [] [] [] [] [] [] [] [] []) (by decide) (by decide)
    (fun s h => Option.noConfusion h) (fun s h => Option.noConfusion h)
    (fun p h => Option.noConfusion h)).1

theorem markReadF_id (uid : String) (now : Int) (n : Notification) :
    (markReadF uid now n).id = n.id := by
  unfold markReadF
  split <;> rfl

/-- C3 counterexample: `mark_read` called with a *provided but empty*
visible page deletes nothing — the Python guard `if notifs:` is falsy for
an empty list — although the claim requires every over-30-day notification
not on the page (here: the one with id 1, 2592001 seconds old) to be
deleted. -/
theorem claim3_counterexample :
    (mark_read "u1" (some []) 2592001
        (Store.mk [] [] [] [] [] [] [] [] []
          [Notification.mk 1 "SUB_BAN" "u1" none none none none none 0 (some 1)])).notifications
      = [Notification.mk 1 "SUB_BAN" "u1" none none none none none 0 (some 1)] ∧
    (0 : Int) < 2592001 - thirtyDays := by
  decide

/-- C3 amended: when `mark_read(uid, visiblePage)` is called with a
**non-empty** `visiblePage`, exactly those notifications targeting `uid`
older than 30 days whose id is not among the page's ids are deleted; every
notification whose id is on the page, and every notification 30 days old or
newer, survives pruning. -/
theorem claim3_expiry_pruning_amended (uid : String) (notifs : List NotifView)
    (now : Int) (st : Store) (n : Notification)
    (hne : notifs ≠ [])
    (hnodup : (st.notifications.map (fun x => x.id)).Nodup)
    (hmem : n ∈ st.notifications) :
    n.id ∈ (mark_read uid (some notifs) now st).notifications.map (fun x => x.id) ↔
      ¬(n.target = uid ∧ n.created < now - thirtyDays
        ∧ n.id ∉ notifs.map (fun v => v.id)) := by
  have hE : notifs.isEmpty = false := by
    cases notifs with
    | nil => exact absurd rfl hne
    | cons a tl => rfl
  have hres : (mark_read uid (some notifs) now st).notifications
      = (st.notifications.filter
          (keepPred uid now (notifs.map (fun v => v.id)))).map (markReadF uid now) := by
    simp only [mark_read, Option.getD_some, hE, Bool.false_eq_true, if_false]
  have hids : (mark_read uid (some notifs) now st).notifications.map (fun x => x.id)
      = (st.notifications.filter
          (keepPred uid now (notifs.map (fun v => v.id)))).map (fun x => x.id) := by
    rw [hres, List.map_map]
    exact List.map_congr_left (fun a _ => markReadF_id uid now a)
  rw [hids]
  have hkeep : keepPred uid now (notifs.map (fun v => v.id)) n = true ↔
      ¬(n.target = uid ∧ n.created < now - thirtyDays
        ∧ n.id ∉ notifs.map (fun v => v.id)) := by
    simp [keepPred, not_and, not_not]
    constructor
    · rintro ((h1 | h2) | h3)
      · intro ha; exact absurd ha h1
      · intro _ hlt; exfalso; omega
      · intro _ _; exact h3
    · intro h
      by_cases ha : n.target = uid
      · by_cases hlt : n.created < now - thirtyDays
        · exact Or.inr (h ha hlt)
        · exact Or.inl (Or.inr (by omega))
      · exact Or.inl (Or.inl ha)
  constructor
  · intro h
    obtain ⟨m, hm, hmid⟩ := List.mem_map.mp h
    have hmf := List.mem_filter.mp hm
    have hmn : m = n := List.inj_on_of_nodup_map hnodup hmf.1 hmem hmid
    rw [← hkeep, ← hmn]
    exact hmf.2
  · intro h
    exact List.mem_map_of_mem _ (List.mem_filter.mpr ⟨hmem, hkeep.mpr h⟩)

/-- Witness for the amended C3 at a concrete input: a non-empty page holding
id 2 only, an over-30-day notification with id 1 targeting the user. -/
theorem claim3_amended_witness :
    1 ∈ (mark_read "u1"
        (some [NotifView.mk 2 "X" none 0 none none none none none none none none none none
          none none none none none none none none none none none none none none]) 2592001
        (Store.mk [] [] [] [] [] [] [] [] []
          [Notification.mk 1 "SUB_BAN" "u1" none none none none none 0 (some 1)])).notifications.map
          (fun x => x.id) ↔
      ¬((Notification.mk 1 "SUB_BAN" "u1" none none none none none 0 (some 1)).target = "u1"
        ∧ (Notification.mk 1 "SUB_BAN" "u1" none none none none none 0 (some 1)).created
            < 2592001 - thirtyDays
        ∧ (Notification.mk 1 "SUB_BAN" "u1" none none none none none 0 (some 1)).id
            ∉ [NotifView.mk 2 "X" none 0 none none none none none none none none none none
              none none none none none none none none none none none none none none].map
              (fun v => v.id)) :=
  claim3_expiry_pruning_amended "u1"
    [NotifView.mk 2 "X" none 0 none none none none none none none none none none
      none none none none none none none none none none none none none none] 2592001
    (Store.mk [] [] [] [] [] [] [] [] []
      [Notification.mk 1 "SUB_BAN" "u1" none none none none none 0 (some 1)])
    (Notification.mk 1 "SUB_BAN" "u1" none none none none none 0 (some 1))
    (by decide) (by decide) (by decide)

theorem paginate_one_append_two (l : List α) :
    paginate 1 50 l ++ paginate 2 50 l = l.take 100 := by
  show (l.drop ((1 - 1) * 50)).take 50 ++ (l.drop ((2 - 1) * 50)).take 50 = l.take 100
  norm_num
  rw [show (100 : Nat) = 50 + 50 from rfl, List.take_add]

theorem notifSorted_map_id_nodup (uid : String) (st : Store)
    (hnodup : (st.notifications.map (fun n => n.id)).Nodup) :
    ((notifSorted uid st).map (fun n => n.id)).Nodup := by
  have hfil : ((notifFiltered uid st).map (fun n => n.id)).Nodup :=
    ((List.filter_sublist _).map _).nodup hnodup
  exact (((List.perm_insertionSort createdGE (notifFiltered uid st)).map _).symm).nodup hfil

/-- C5: page 1 has at most 50 rows; pages 1 and 2 concatenated are in
`created`-descending order (so page 2 holds the following notifications);
under unique ids no notification appears on both pages. -/
theorem claim5_pagination (uid : String) (st : Store)
    (hnodup : (st.notifications.map (fun n => n.id)).Nodup) :
    (get_notifications uid 1 st).length ≤ 50 ∧
    List.Pairwise (fun a b => b ≤ a)
      ((get_notifications uid 1 st ++ get_notifications uid 2 st).map (fun v => v.created)) ∧
    ∀ i ∈ (get_notifications uid 1 st).map (fun v => v.id),
      i ∉ (get_notifications uid 2 st).map (fun v => v.id) := by
  refine ⟨?_, ?_, ?_⟩
  · have hlen := congrArg List.length (get_notifications_map_id uid 1 st)
    simp only [List.length_map] at hlen
    rw [hlen]
    exact List.length_take_le _ _
  · have hsort : List.Pairwise createdGE (notifSorted uid st) :=
      List.sorted_insertionSort createdGE _
    have htake : List.Pairwise createdGE ((notifSorted uid st).take 100) :=
      hsort.sublist (List.take_sublist _ _)
    have happPW : List.Pairwise createdGE
        (paginate 1 50 (notifSorted uid st) ++ paginate 2 50 (notifSorted uid st)) := by
      rw [paginate_one_append_two]
      exact htake
    rw [List.map_append, get_notifications_map_created, get_notifications_map_created,
      ← List.map_append]
    exact List.pairwise_map.mpr happPW
  · have hnod : ((notifSorted uid st).map (fun n => n.id)).Nodup :=
      notifSorted_map_id_nodup uid st hnodup
    have htake : (((notifSorted uid st).take 100).map (fun n => n.id)).Nodup :=
      ((List.take_sublist _ _).map _).nodup hnod
    have happN : ((paginate 1 50 (notifSorted uid st)).map (fun n => n.id)
        ++ (paginate 2 50 (notifSorted uid st)).map (fun n => n.id)).Nodup := by
      rw [← List.map_append, paginate_one_append_two]
      exact htake
    have hdisj := (List.nodup_append.mp happN).2.2
    intro i hi hmem
    rw [get_notifications_map_id] at hi hmem
    exact hdisj hi hmem

/-- Witness for C5 at a concrete two-notification store. -/
theorem claim5_witness :
    (get_notifications "u1" 1
      (Store.mk [] [] [] [] [] [] [] [] []
        [Notification.mk 1 "A" "u1" none none none none none 5 none,
         Notification.mk 2 "B" "u1" none none none none none 9 none])).length ≤ 50 :=
  (claim5_pagination "u1"
    (Store.mk [] [] [] [] [] [] [] [] []
      [Notification.mk 1 "A" "u1" none none none none none 5 none,
       Notification.mk 2 "B" "u1" none none none none none 9 none]) (by decide)).1

theorem option_isNone_false_iff {o : Option α} : o.isNone = false ↔ o.isSome = true := by
  cases o <;> simp

/-- A notification's id shows up on some page exactly when the row passes
the main query's WHERE clause. -/
theorem id_in_some_page_iff (uid : String) (st : Store) (n : Notification)
    (hmem : n ∈ st.notifications)
    (hnodup : (st.notifications.map (fun x => x.id)).Nodup) :
    (∃ p, ∃ v ∈ get_notifications uid p st, v.id = n.id) ↔ notifWhere uid st n = true := by
  constructor
  · rintro ⟨p, v, hv, hvid⟩
    have hid : n.id ∈ (paginate p 50 (notifSorted uid st)).map (fun x => x.id) := by
      rw [← get_notifications_map_id]
      exact List.mem_map.mpr ⟨v, hv, hvid⟩
    obtain ⟨m, hm, hmid⟩ := List.mem_map.mp hid
    have hm1 : m ∈ notifFiltered uid st :=
      (List.mem_insertionSort createdGE).mp (mem_of_mem_paginate hm)
    have hm2 := List.mem_filter.mp hm1
    have hmn : m = n := List.inj_on_of_nodup_map hnodup hm2.1 hmem hmid
    rw [← hmn]
    exact hm2.2
  · intro hw
    have hf : n ∈ notifFiltered uid st := List.mem_filter.mpr ⟨hmem, hw⟩
    have hs : n ∈ notifSorted uid st := (List.mem_insertionSort createdGE).mpr hf
    obtain ⟨p, hp⟩ := exists_paginate_of_mem hs
    refine ⟨p, mergeVotes
        (pageVotes uid ((paginate p 50 (notifSorted uid st)).map (fun x => x.id)) st)
        (enrich uid st n), ?_, rfl⟩
    simp only [get_notifications]
    exact List.mem_map_of_mem _ (List.mem_map_of_mem _ hp)

theorem activeModRow_isSome_iff (S : Store) (u sd : String) :
    (activeModRow S u sd).isSome = true ↔
      ∃ m ∈ S.submods, m.user = u ∧ m.sub = sd ∧ m.invite = false := by
  constructor
  · intro h
    obtain ⟨m, hm⟩ := Option.isSome_iff_exists.mp h
    have hpm := List.find?_some hm
    have hmm := List.mem_of_find?_eq_some hm
    simp only [Bool.and_eq_true, beq_iff_eq, Bool.not_eq_true'] at hpm
    exact ⟨m, hmm, hpm.1.1, hpm.1.2, hpm.2⟩
  · rintro ⟨m, hm, h1, h2, h3⟩
    exact List.find?_isSome.mpr ⟨m, hm, by simp [h1, h2, h3]⟩

theorem senderRow_eq_of_ref (st : Store) (n : Notification) (s : String)
    (hs : n.sender = some s)
    (href : ∀ s2, n.sender = some s2 → ∃ u ∈ st.users, u.uid = s2) :
    ∃ u, senderRow st n = some u ∧ u.uid = s := by
  obtain ⟨u, hu, huid⟩ := href s hs
  have hsome : (st.users.find? (fun x => x.uid == s)).isSome :=
    List.find?_isSome.mpr ⟨u, hu, by simp [huid]⟩
  obtain ⟨u2, hu2⟩ := Option.isSome_iff_exists.mp hsome
  refine ⟨u2, ?_, ?_⟩
  · simp [senderRow, hs, hu2]
  · simpa using List.find?_some hu2

theorem blockRow_isNone_false_iff (uid : String) (st : Store) (n : Notification)
    (href : ∀ s2, n.sender = some s2 → ∃ u ∈ st.users, u.uid = s2) :
    (blockRow uid st n).isNone = false ↔
      ∃ s, n.sender = some s ∧ ∃ b ∈ st.blocks, b.uid = uid ∧ b.target = s := by
  cases hs : n.sender with
  | none => simp [blockRow, senderRow, hs]
  | some s =>
    obtain ⟨u2, hu2, huid⟩ := senderRow_eq_of_ref st n s hs href
    have hbr : blockRow uid st n
        = st.blocks.find? (fun b => b.uid == uid && b.target == u2.uid) := by
      simp [blockRow, hu2]
    rw [hbr, option_isNone_false_iff, List.find?_isSome]
    constructor
    · rintro ⟨b, hb, hpb⟩
      simp only [Bool.and_eq_true, beq_iff_eq] at hpb
      exact ⟨s, rfl, b, hb, hpb.1, hpb.2.trans huid⟩
    · rintro ⟨s2, hs2, b, hb, h1, h2⟩
      obtain rfl : s = s2 := Option.some_inj.mp hs2
      exact ⟨b, hb, by simp [h1, h2, huid]⟩

theorem senderModRow_isSome_iff (st : Store) (n : Notification)
    (href : ∀ s2, n.sender = some s2 → ∃ u ∈ st.users, u.uid = s2) :
    (senderModRow st n).isSome = true ↔
      ∃ s sd, n.sender = some s ∧ n.sub = some sd
        ∧ ∃ m ∈ st.submods, m.user = s ∧ m.sub = sd ∧ m.invite = false := by
  cases hs : n.sender with
  | none => simp [senderModRow, senderRow, hs]
  | some s =>
    obtain ⟨u2, hu2, huid⟩ := senderRow_eq_of_ref st n s hs href
    cases hb : n.sub with
    | none => simp [senderModRow, hu2, hb]
    | some sd =>
      have hsm : senderModRow st n = activeModRow st u2.uid sd := by
        simp [senderModRow, hu2, hb]
      rw [hsm, huid, activeModRow_isSome_iff]
      constructor
      · rintro ⟨m, hm, h1, h2, h3⟩
        exact ⟨s, sd, rfl, rfl, m, hm, h1, h2, h3⟩
      · rintro ⟨s2, sd2, hs2, hsd2, m, hm, h1, h2, h3⟩
        obtain rfl : s = s2 := Option.some_inj.mp hs2
        obtain rfl : sd = sd2 := Option.some_inj.mp hsd2
        exact ⟨m, hm, h1, h2, h3⟩

theorem viewerModRow_isSome_iff (uid : String) (st : Store) (n : Notification) :
    (viewerModRow uid st n).isSome = true ↔
      ∃ sd, n.sub = some sd
        ∧ ∃ m ∈ st.submods, m.user = uid ∧ m.sub = sd ∧ m.invite = false := by
  cases hb : n.sub with
  | none => simp [viewerModRow, hb]
  | some sd =>
    have hvm : viewerModRow uid st n = activeModRow st uid sd := by
      simp [viewerModRow, hb]
    rw [hvm, activeModRow_isSome_iff]
    constructor
    · rintro ⟨m, hm, h1, h2, h3⟩
      exact ⟨sd, rfl, m, hm, h1, h2, h3⟩
    · rintro ⟨sd2, hsd2, m, hm, h1, h2, h3⟩
      obtain rfl : sd = sd2 := Option.some_inj.mp hsd2
      exact ⟨m, hm, h1, h2, h3⟩

/-- C2: for a notification (passing the soft-delete filter, with referential
integrity on its sender) of one of the four block-sensitive types, it is
absent from every page of the target's list exactly when the target blocks
the sender and neither party actively moderates the notification's sub; a
notification of any other type is never excluded by blocking. -/
theorem claim2_block_visibility (uid : String) (st : Store) (n : Notification)
    (hmem : n ∈ st.notifications)
    (htgt : n.target = uid)
    (hcomment : commentStatusOk st n = true)
    (hnodup : (st.notifications.map (fun x => x.id)).Nodup)
    (href : ∀ s, n.sender = some s → ∃ u ∈ st.users, u.uid = s) :
    (n.type ∈ notificationTypes →
      ((∀ p, ∀ v ∈ get_notifications uid p st, v.id ≠ n.id) ↔
        ((∃ s, n.sender = some s ∧ ∃ b ∈ st.blocks, b.uid = uid ∧ b.target = s) ∧
         ¬(∃ s sd, n.sender = some s ∧ n.sub = some sd
             ∧ ∃ m ∈ st.submods, m.user = s ∧ m.sub = sd ∧ m.invite = false) ∧
         ¬(∃ sd, n.sub = some sd
             ∧ ∃ m ∈ st.submods, m.user = uid ∧ m.sub = sd ∧ m.invite = false)))) ∧
    (n.type ∉ notificationTypes →
      ∃ p, ∃ v ∈ get_notifications uid p st, v.id = n.id) := by
  have hPresent := id_in_some_page_iff uid st n hmem hnodup
  have hWV : notifWhere uid st n = notifVisible uid st n := by
    simp [notifWhere, htgt, hcomment]
  have hBlockIff := blockRow_isNone_false_iff uid st n href
  have hSModIff := senderModRow_isSome_iff st n href
  have hVModIff := viewerModRow_isSome_iff uid st n
  constructor
  · intro htype
    have hcont : notificationTypes.contains n.type = true := by simpa using htype
    constructor
    · intro habs
      have hnp : ¬(∃ p, ∃ v ∈ get_notifications uid p st, v.id = n.id) := by
        rintro ⟨p, v, hv, he⟩
        exact habs p v hv he
      have hwf : notifWhere uid st n = false := by
        cases h : notifWhere uid st n
        · rfl
        · exact absurd (hPresent.mpr h) hnp
      have hvf : notifVisible uid st n = false := by rw [← hWV]; exact hwf
      have ha : (blockRow uid st n).isNone = false := by
        cases h : (blockRow uid st n).isNone
        · rfl
        · have hvt : notifVisible uid st n = true := by simp [notifVisible, h]
          rw [hvt] at hvf
          exact absurd hvf (by decide)
      have hc : (senderModRow st n).isSome = false := by
        cases h : (senderModRow st n).isSome
        · rfl
        · have hvt : notifVisible uid st n = true := by simp [notifVisible, h]
          rw [hvt] at hvf
          exact absurd hvf (by decide)
      have hd : (viewerModRow uid st n).isSome = false := by
        cases h : (viewerModRow uid st n).isSome
        · rfl
        · have hvt : notifVisible uid st n = true := by simp [notifVisible, h]
          rw [hvt] at hvf
          exact absurd hvf (by decide)
      refine ⟨hBlockIff.mp ha, ?_, ?_⟩
      · intro hp2
        exact absurd (hSModIff.mpr hp2) (by simp [hc])
      · intro hp3
        exact absurd (hVModIff.mpr hp3) (by simp [hd])
    · rintro ⟨hP1, hP2, hP3⟩ p v hv he
      have hw : notifWhere uid st n = true := hPresent.mp ⟨p, v, hv, he⟩
      have hv2 : notifVisible uid st n = true := by rw [← hWV]; exact hw
      simp only [notifVisible, Bool.or_eq_true] at hv2
      rcases hv2 with ((ha | hb) | hc) | hd
      · have h1 : (blockRow uid st n).isNone = false := hBlockIff.mpr hP1
        rw [h1] at ha
        exact absurd ha (by decide)
      · rw [hcont] at hb
        exact absurd hb (by decide)
      · exact hP2 (hSModIff.mp hc)
      · exact hP3 (hVModIff.mp hd)
  · intro htype
    have hv2 : notifVisible uid st n = true := by
      simp [notifVisible, htype]
    have hw : notifWhere uid st n = true := by rw [hWV]; exact hv2
    exact hPresent.mpr hw

/-- Witness for C2 at a concrete input: a blocked POST_REPLY with no
moderators is absent from every page. -/
theorem claim2_witness :
    ((Notification.mk 1 "POST_REPLY" "uA" (some "uB") none none none none 0 none).type
        ∈ notificationTypes →
      ((∀ p, ∀ v ∈ get_notifications "uA" p
          (Store.mk [User.mk "uA" "A", User.mk "uB" "B"] [] [] [] [] [] []
            [UserContentBlock.mk 1 "uA" "uB"] []
            [Notification.mk 1 "POST_REPLY" "uA" (some "uB") none none none none 0 none]),
          v.id ≠ (Notification.mk 1 "POST_REPLY" "uA" (some "uB") none none none none 0 none).id) ↔
        ((∃ s, (Notification.mk 1 "POST_REPLY" "uA" (some "uB") none none none none 0 none).sender
              = some s
            ∧ ∃ b ∈ (Store.mk [User.mk "uA" "A", User.mk "uB" "B"] [] [] [] [] [] []
                [UserContentBlock.mk 1 "uA" "uB"] []
                [Notification.mk 1 "POST_REPLY" "uA" (some "uB") none none none none 0 none]).blocks,
              b.uid = "uA" ∧ b.target = s) ∧
         ¬(∃ s sd, (Notification.mk 1 "POST_REPLY" "uA" (some "uB") none none none none 0 none).sender
              = some s
            ∧ (Notification.mk 1 "POST_REPLY" "uA" (some "uB") none none none none 0 none).sub
              = some sd
            ∧ ∃ m ∈ (Store.mk [User.mk "uA" "A", User.mk "uB" "B"] [] [] [] [] [] []
                [UserContentBlock.mk 1 "uA" "uB"] []
                [Notification.mk 1 "POST_REPLY" "uA" (some "uB") none none none none 0 none]).submods,
              m.user = s ∧ m.sub = sd ∧ m.invite = false) ∧
         ¬(∃ sd, (Notification.mk 1 "POST_REPLY" "uA" (some "uB") none none none none 0 none).sub
              = some sd
            ∧ ∃ m ∈ (Store.mk [User.mk "uA" "A", User.mk "uB" "B"] [] [] [] [] [] []
                [UserContentBlock.mk 1 "uA" "uB"] []
                [Notification.mk 1 "POST_REPLY" "uA" (some "uB") none none none none 0 none]).submods,
              m.user = "uA" ∧ m.sub = sd ∧ m.invite = false)))) ∧
    ((Notification.mk 1 "POST_REPLY" "uA" (some "uB") none none none none 0 none).type
        ∉ notificationTypes →
      ∃ p, ∃ v ∈ get_notifications "uA" p
        (Store.mk [User.mk "uA" "A", User.mk "uB" "B"] [] [] [] [] [] []
          [UserContentBlock.mk 1 "uA" "uB"] []
          [Notification.mk 1 "POST_REPLY" "uA" (some "uB") none none none none 0 none]),
        v.id = (Notification.mk 1 "POST_REPLY" "uA" (some "uB") none none none none 0 none).id) :=
  claim2_block_visibility "uA"
    (Store.mk [User.mk "uA" "A", User.mk "uB" "B"] [] [] [] [] [] []
      [UserContentBlock.mk 1 "uA" "uB"] []
      [Notification.mk 1 "POST_REPLY" "uA" (some "uB") none none none none 0 none])
    (Notification.mk 1 "POST_REPLY" "uA" (some "uB") none none none none 0 none)
    (by decide) (by decide) (by decide) (by decide)
    (by intro s hs
        refine ⟨User.mk "uB" "B", by decide, ?_⟩
        cases hs
        rfl)

/-- C7: every view on a returned page carries `comment_positive` and
`post_positive` equal to the requesting user's recorded vote on the joined
comment and post of its underlying notification (`voteRow`, the direct
per-row lookup of the second query), each `none` when no such vote exists;
so the restricted second query merged back by id is correct. -/
theorem claim7_vote_merge (uid : String) (page : Nat) (st : Store)
    (hnodup : (st.notifications.map (fun x => x.id)).Nodup)
    (v : NotifView) (hv : v ∈ get_notifications uid page st)
    (n : Notification) (hn : n ∈ st.notifications) (hid : n.id = v.id) :
    v.comment_positive = (voteRow uid st n).comment_positive ∧
    v.post_positive = (voteRow uid st n).post_positive := by
  simp only [get_notifications] at hv
  set ids := (paginate page 50 (notifSorted uid st)).map (fun n => n.id) with hidsdef
  obtain ⟨w, hw, hwv⟩ := List.mem_map.mp hv
  obtain ⟨m0, hm0, hem⟩ := List.mem_map.mp hw
  have hm0mem : m0 ∈ st.notifications :=
    (List.mem_filter.mp ((List.mem_insertionSort createdGE).mp (mem_of_mem_paginate hm0))).1
  have hm0ids : m0.id ∈ ids := by
    rw [hidsdef]
    exact List.mem_map_of_mem _ hm0
  have hfil : m0 ∈ st.notifications.filter (fun m => ids.contains m.id) :=
    List.mem_filter.mpr ⟨hm0mem, by simpa using hm0ids⟩
  have hvote : voteRow uid st m0 ∈ pageVotes uid ids st := List.mem_map_of_mem _ hfil
  have hsome : (votesDict (pageVotes uid ids st) m0.id).isSome :=
    votesDict_isSome ⟨voteRow uid st m0, hvote, rfl⟩
  obtain ⟨vr, hvr⟩ := Option.isSome_iff_exists.mp hsome
  obtain ⟨hvrmem, hvrnid⟩ := votesDict_some hvr
  obtain ⟨m1, hm1fil, hm1vr⟩ := List.mem_map.mp hvrmem
  have hm1id : m1.id = m0.id := by
    rw [show m1.id = (voteRow uid st m1).nid from rfl, hm1vr, hvrnid]
  have hm1mem : m1 ∈ st.notifications := (List.mem_filter.mp hm1fil).1
  have hm1m0 : m1 = m0 := List.inj_on_of_nodup_map hnodup hm1mem hm0mem hm1id
  have hnm0 : n = m0 := by
    refine List.inj_on_of_nodup_map hnodup hn hm0mem ?_
    rw [hid, ← hwv, ← hem]
    rfl
  have hvrval : vr = voteRow uid st m0 := by rw [← hm1vr, hm1m0]
  have hwid : w.id = m0.id := by rw [← hem]; rfl
  have hcp : v.comment_positive = vr.comment_positive := by
    rw [← hwv]
    show ((votesDict (pageVotes uid ids st) w.id).getD
      { nid := w.id, comment_positive := none, post_positive := none }).comment_positive
      = vr.comment_positive
    rw [hwid, hvr]
    rfl
  have hpp : v.post_positive = vr.post_positive := by
    rw [← hwv]
    show ((votesDict (pageVotes uid ids st) w.id).getD
      { nid := w.id, comment_positive := none, post_positive := none }).post_positive
      = vr.post_positive
    rw [hwid, hvr]
    rfl
  constructor
  · rw [hcp, hvrval, hnm0]
  · rw [hpp, hvrval, hnm0]

/-- Witness for C7 at a concrete input: one notification whose post has an
upvote and whose comment has a downvote from the viewer. -/
theorem claim7_witness :
    (NotifView.mk 1 "A" none 0 none none none (some 1) (some 7) none none none (some "t")
        (some 0) (some false) (some "c") (some 0) (some "c") none (some 0) none none none
        none none none (some false) (some true)).comment_positive
      = (voteRow "u1"
          (Store.mk [] [] [SubPost.mk 1 "t" 0 false 0 none none]
            [SubPostComment.mk 7 "c" 0 none none 0] []
            [SubPostVote.mk "u1" 1 true] [SubPostCommentVote.mk "u1" 7 false] [] []
            [Notification.mk 1 "A" "u1" none none (some 1) (some 7) none 0 none])
          (Notification.mk 1 "A" "u1" none none (some 1) (some 7) none 0 none)).comment_positive ∧
    (NotifView.mk 1 "A" none 0 none none none (some 1) (some 7) none none none (some "t")
        (some 0) (some false) (some "c") (some 0) (some "c") none (some 0) none none none
        none none none (some false) (some true)).post_positive
      = (voteRow "u1"
          (Store.mk [] [] [SubPost.mk 1 "t" 0 false 0 none none]
            [SubPostComment.mk 7 "c" 0 none none 0] []
            [SubPostVote.mk "u1" 1 true] [SubPostCommentVote.mk "u1" 7 false] [] []
            [Notification.mk 1 "A" "u1" none none (some 1) (some 7) none 0 none])
          (Notification.mk 1 "A" "u1" none none (some 1) (some 7) none 0 none)).post_positive :=
  claim7_vote_merge "u1" 1
    (Store.mk [] [] [SubPost.mk 1 "t" 0 false 0 none none]
      [SubPostComment.mk 7 "c" 0 none none 0] []
      [SubPostVote.mk "u1" 1 true] [SubPostCommentVote.mk "u1" 7 false] [] []
      [Notification.mk 1 "A" "u1" none none (some 1) (some 7) none 0 none])
    (by decide)
    (NotifView.mk 1 "A" none 0 none none none (some 1) (some 7) none none none (some "t")
      (some 0) (some false) (some "c") (some 0) (some "c") none (some 0) none none none
      none none none (some false) (some true))
    (by decide)
    (Notification.mk 1 "A" "u1" none none (some 1) (some 7) none 0 none)
    (by decide) (by decide)

end Throat
